import Mathlib

/-!
Verification of the light_ui battery-label service.

The Python sources are shallowly embedded: serial strings become `List Char`,
CSV rows become structures holding the fields the embedded functions read,
the MQTT bus becomes lists of published messages, and the printer socket
becomes an oracle of per-attempt outcomes.  Regex use in the sources is
embedded by deterministic character scans that reproduce the exact leftmost,
greedy semantics of the patterns involved (all character classes adjacent in
those patterns are disjoint, so the scans are exact).

The file `src/labels/printer_config.py` is not part of the sources; the
constants it provides (error bit masks, status identifiers) are modelled from
the spec as abstract parameters or as an enumeration mirroring the spec
enumeration `Ready | MediaOut | HeadOpen | UnknownError | CommError`.
-/

namespace LightUi

/-! ### Character and string helpers (Python `str` operations on `List Char`) -/

/-- Numeric value of a decimal string, as computed by Python `int(s)` for a
string of digit characters: left fold, most significant digit first. -/
def digitsToNat (s : List Char) : Nat :=
  s.foldl (fun a c => a * 10 + (c.toNat - '0'.toNat)) 0

/-- Hexadecimal digit test matching the regex class `[0-9A-Fa-f]`. -/
def isHexDigitC (c : Char) : Bool :=
  c.isDigit || ('A' ≤ c && c ≤ 'F') || ('a' ≤ c && c ≤ 'f')

/-- Value of one hexadecimal digit. -/
def hexVal (c : Char) : Nat :=
  if c.isDigit then c.toNat - '0'.toNat
  else if 'A' ≤ c && c ≤ 'F' then c.toNat - 'A'.toNat + 10
  else if 'a' ≤ c && c ≤ 'f' then c.toNat - 'a'.toNat + 10
  else 0

/-- Numeric value of a hexadecimal string, as computed by `int(s, 16)`. -/
def hexToNat (s : List Char) : Nat :=
  s.foldl (fun a c => a * 16 + hexVal c) 0

/-- Python `str.strip`: drop whitespace from both ends. -/
def stripL (s : List Char) : List Char :=
  ((s.dropWhile Char.isWhitespace).reverse.dropWhile Char.isWhitespace).reverse

/-- Python `str.lower` (ASCII range, which is all the sources compare). -/
def toLowerL (s : List Char) : List Char :=
  s.map Char.toLower

/-- Python `str.zfill 8`: left-pad with zeros to width 8. -/
def zfill8 (s : List Char) : List Char :=
  List.replicate (8 - s.length) '0' ++ s

/-! ### Ledger rows

`printed_serials.csv` rows are read through `csv.DictReader`; the embedded
functions only consult the `NumeroSerie` and `sav_status` columns, so a row is
modelled by those two fields (`sav_status` carries the raw cell text, with the
`row.get("sav_status", "False")` default already applied). -/

structure LedgerRow where
  serial : List Char
  savStatus : List Char
deriving DecidableEq

/-! ### `get_last_serial_from_csv` and `generate_next_numeric_part`
(src/src/labels/csv_serial_manager.py)

The pattern `RW-48v(XXX|\d+)(\d{4})` is applied with `re.search`.  At a given
start position the literal prefix must match, then the first group tries
`XXX` and falls back to a digit run, and the second group takes four digits
immediately after the first group.  With a greedy digit run of length `k`,
backtracking leaves the last four digits of the run to the second group, so
the run must have length at least five. -/

/-- Group 2 of `RW-48v(XXX|\d+)(\d{4})` matched at the head of `s`, when the
pattern matches there. -/
def group2At (s : List Char) : Option (List Char) :=
  if "RW-48v".toList.isPrefixOf s then
    let r := s.drop 6
    if "XXX".toList.isPrefixOf r
        && decide (4 ≤ (r.drop 3).length)
        && ((r.drop 3).take 4).all Char.isDigit then
      some ((r.drop 3).take 4)
    else
      let run := r.takeWhile Char.isDigit
      if 5 ≤ run.length then some (run.drop (run.length - 4)) else none
  else none

/-- `re.search` of `RW-48v(XXX|\d+)(\d{4})`: group 2 of the leftmost match. -/
def searchGroup2 : List Char → Option (List Char)
  | [] => none
  | c :: rest =>
    match group2At (c :: rest) with
    | some g => some g
    | none => searchGroup2 rest

/-- Tail loop of `get_last_serial_from_csv`: keep the serial whose captured
4-digit group is strictly greater than the best seen so far (initially -1). -/
def lastSerialAux : List LedgerRow → Int → Option (List Char) → Option (List Char)
  | [], _, bestS => bestS
  | r :: rest, best, bestS =>
    if r.serial = [] then
      lastSerialAux rest best bestS
    else
      match searchGroup2 r.serial with
      | some g =>
        if best < (digitsToNat g : Int) then
          lastSerialAux rest (digitsToNat g) (some r.serial)
        else
          lastSerialAux rest best bestS
      | none => lastSerialAux rest best bestS

/-- `CSVSerialManager.get_last_serial_from_csv`, over the in-memory rows. -/
def get_last_serial_from_csv (rows : List LedgerRow) : Option (List Char) :=
  lastSerialAux rows (-1) none

/-- `re.search` of `(\d{4})$`: the final four characters when they are all
digits (the only position where four digits can touch the end). -/
def tail4 (s : List Char) : Option (List Char) :=
  if 4 ≤ s.length then
    if (s.drop (s.length - 4)).all Char.isDigit then some (s.drop (s.length - 4))
    else none
  else none

/-- `CSVSerialManager.generate_next_numeric_part`: numeric value of the next
sequence (the source then renders it with `zfill(4)`). -/
def generate_next_numeric_part (rows : List LedgerRow) : Nat :=
  match get_last_serial_from_csv rows with
  | none => 0
  | some s =>
    match tail4 s with
    | some g => digitsToNat g + 1
    | none => 0

/-- The captured 4-digit sequences of all records matching the serial
pattern, in row order (the quantity the spec sentence ranges over). -/
def matchedSeqs (rows : List LedgerRow) : List Nat :=
  rows.filterMap fun r => (searchGroup2 r.serial).map digitsToNat

/-- Claim C1 as the spec words it: one plus the maximum captured sequence
among matching records, and 0 when no record matches. -/
def claimNextNumericPart (rows : List LedgerRow) : Nat :=
  if matchedSeqs rows = [] then 0 else (matchedSeqs rows).foldr max 0 + 1

/-- A serial is tail-aligned when its captured 4-digit group (if any) is its
final four characters, i.e. the regex match ends at the end of the string. -/
def matchIsSuffix (s : List Char) : Bool :=
  match searchGroup2 s with
  | none => true
  | some g => decide (s.drop (s.length - 4) = g)

/-! ### `is_battery_in_sav` (src/src/labels/csv_serial_manager.py)

Scans the main CSV for the first row whose `NumeroSerie` equals the queried
serial and reports whether its `sav_status` cell, stripped and lowercased,
equals `"true"`; an absent serial reports `false`. -/

def is_battery_in_sav (rows : List LedgerRow) (serial : List Char) : Bool :=
  match rows.find? (fun r => r.serial = serial) with
  | some r => toLowerL (stripL r.savStatus) = "true".toList
  | none => false

/-! ### Expedition finalize (src/src/ui/scan_manager.py, `_handle_expedition_finalize`)

The handler walks the accumulated batch; a serial currently flagged in SAV
gets exactly one `printer/sav_departure` publication, any other serial gets
exactly one `printer/update_shipping_timestamp` publication, all with the one
timestamp taken at finalize time.  An empty batch or a disconnected MQTT
client publishes nothing and resets. -/

inductive BusMsg
  | savDeparture (serial : List Char) (ts : List Char)
  | shippingUpdate (serial : List Char) (ts : List Char)
deriving DecidableEq

/-- Predicate picking out SAV-Departure messages for a given serial. -/
def BusMsg.isSavDepartureFor (s : List Char) : BusMsg → Bool
  | BusMsg.savDeparture s2 _ => decide (s2 = s)
  | _ => false

/-- Predicate picking out Shipping-Update messages for a given serial. -/
def BusMsg.isShippingUpdateFor (s : List Char) : BusMsg → Bool
  | BusMsg.shippingUpdate s2 _ => decide (s2 = s)
  | _ => false

/-- The bus messages published by `_handle_expedition_finalize`, in order. -/
def handle_expedition_finalize (mqttConnected : Bool) (rows : List LedgerRow)
    (batch : List (List Char)) (ts : List Char) : List BusMsg :=
  if batch = [] then []
  else if !mqttConnected then []
  else
    batch.map fun serial =>
      if is_battery_in_sav rows serial then BusMsg.savDeparture serial ts
      else BusMsg.shippingUpdate serial ts

/-! ### Finish/Validate compatibility (src/src/ui/scan_manager.py)

`_is_finish_combination_valid` also returns a diagnostic message; only the
boolean is modelled, the message is consumed by the UI alone. -/

/-- The `valid_combinations` table of `_is_finish_combination_valid`. -/
def valid_combinations (letter : Char) : Option (List (List Char)) :=
  if letter = 'A' then some ["13".toList, "12".toList]
  else if letter = 'B' then some ["13".toList, "12".toList]
  else if letter = 'C' then some ["13".toList, "12".toList]
  else if letter = 'D' then some ["8.6".toList]
  else if letter = 'E' then some ["8.6".toList]
  else none

/-- `ScanManager._is_finish_combination_valid` (boolean component). -/
def is_finish_combination_valid (letter : Char) (modelKey : List Char) : Bool :=
  match valid_combinations letter with
  | none => false
  | some allowed => decide (modelKey ∈ allowed)

/-- Python `f"...{x}..."` of an optional string: `None` renders as "None". -/
def pyStr : Option (List Char) → List Char
  | none => "None".toList
  | some s => s

/-- The scratch state read by `_handle_await_finish_confirm`. -/
structure FinishState where
  validated_model : Option (List Char)
  temp_serial_to_validate : Option (List Char)

/-- First character of a Python string (the handler indexes `temp[0]` only on
the non-empty strings the previous state stores). -/
def headChar (s : List Char) : Char := s.headD ' '

/-- `ScanManager._handle_await_finish_confirm`: the published
`printer/validate_battery` payload, or `none` when nothing is published
(wrong confirmation token, no pending serial, incompatible combination, or
disconnected MQTT client). -/
def handle_await_finish_confirm (mqttConnected : Bool) (st : FinishState)
    (text : List Char) : Option (List Char × List Char) :=
  let expected := "finish ".toList ++ pyStr st.validated_model
  if stripL (toLowerL text) ≠ expected then none
  else
    match st.temp_serial_to_validate with
    | none => none
    | some temp =>
      if temp = [] then none
      else if is_finish_combination_valid (headChar temp) (pyStr st.validated_model) then
        if mqttConnected then some (temp, pyStr st.validated_model) else none
      else none

/-! ### Session reset (src/src/ui/scan_manager.py, `_reset_scan`)

`ScanManager.__init__` creates the scratch fields below; `_reset_scan` (which
`_timeout_expired` calls) rewrites only some of them. -/

/-- `ScanManager.STATE_IDLE`. -/
def STATE_IDLE : Nat := 0
/-- `ScanManager.STATE_AWAIT_REPRINT_SERIAL`. -/
def STATE_AWAIT_REPRINT_SERIAL : Nat := 10

/-- The mutable session fields of `ScanManager`. -/
structure ScanState where
  current_state : Nat
  serials_for_expedition : List (List Char)
  expedition_mode_active : Bool
  serial_for_sav : Option (List Char)
  qr_text_to_print : Option (List Char)
  qr_content_to_encode : Option (List Char)
  validated_model : Option (List Char)
  temp_serial_to_validate : Option (List Char)
  serial_to_reprint : Option (List Char)
  material_letter : Option Char
deriving DecidableEq

/-- `ScanManager._reset_scan`: the exact field writes the source performs. -/
def reset_scan (s : ScanState) : ScanState :=
  { s with
    current_state := STATE_IDLE
    serials_for_expedition := []
    expedition_mode_active := false
    serial_for_sav := none
    material_letter := none
    validated_model := none
    temp_serial_to_validate := none }

/-- `ScanManager._timeout_expired`: logs, updates the UI, and resets. -/
def timeout_expired (s : ScanState) : ScanState := reset_scan s

/-! ### Device status probe (src/printer.py)

`_parse_hqes_response` scans the response line by line with
`^\s*([A-Z]+):\s+(\d)\s+([0-9A-Fa-f]+)\s+([0-9A-Fa-f]+)`.  Every adjacent
pair of character classes in that pattern is disjoint, so a single greedy
left-to-right scan is the exact regex semantics.  The response is modelled as
its list of lines (`str.splitlines`). -/

/-- `re.match` of the HQES line pattern: `(section, flag, firstMask,
secondMask)` of the leftmost anchored match, if any. -/
def matchHqesLine (line : List Char) : Option (List Char × Char × List Char × List Char) :=
  let l1 := line.dropWhile Char.isWhitespace
  let sec := l1.takeWhile Char.isUpper
  if sec = [] then none
  else
    match l1.drop sec.length with
    | ':' :: r2 =>
      let sp1 := r2.takeWhile Char.isWhitespace
      if sp1 = [] then none
      else
        match r2.drop sp1.length with
        | d :: r3 =>
          if d.isDigit then
            let sp2 := r3.takeWhile Char.isWhitespace
            if sp2 = [] then none
            else
              let r4 := r3.drop sp2.length
              let h1 := r4.takeWhile isHexDigitC
              if h1 = [] then none
              else
                let r5 := r4.drop h1.length
                let sp3 := r5.takeWhile Char.isWhitespace
                if sp3 = [] then none
                else
                  let h2 := (r5.drop sp3.length).takeWhile isHexDigitC
                  if h2 = [] then none else some (sec, d, h1, h2)
          else none
        | [] => none
    | _ => none

/-- The six components `_parse_hqes_response` returns: error flag and masks,
warning flag and masks (masks zero-filled to width 8 on return). -/
structure HqesData where
  errorFlag : Char
  errorG2 : List Char
  errorG1 : List Char
  warnFlag : Char
  warnG2 : List Char
  warnG1 : List Char
deriving DecidableEq

/-- Loop of `_parse_hqes_response`: later matching lines of a section
overwrite earlier ones; the result exists only if some ERRORS line matched. -/
def parseHqesAux : List (List Char) → HqesData → Bool → Option HqesData
  | [], st, foundErrors =>
    if foundErrors then
      some { st with
        errorG2 := zfill8 st.errorG2, errorG1 := zfill8 st.errorG1,
        warnG2 := zfill8 st.warnG2, warnG1 := zfill8 st.warnG1 }
    else none
  | line :: rest, st, foundErrors =>
    match matchHqesLine line with
    | some (sec, flag, g2, g1) =>
      if sec = "ERRORS".toList then
        parseHqesAux rest { st with errorFlag := flag, errorG2 := g2, errorG1 := g1 } true
      else if sec = "WARNINGS".toList then
        parseHqesAux rest { st with warnFlag := flag, warnG2 := g2, warnG1 := g1 } foundErrors
      else parseHqesAux rest st foundErrors
    | none => parseHqesAux rest st foundErrors

/-- `MinimalPrinter._parse_hqes_response` over the response lines. -/
def parse_hqes_response (lines : List (List Char)) : Option HqesData :=
  parseHqesAux lines ⟨'0', "00000000".toList, "00000000".toList,
                      '0', "00000000".toList, "00000000".toList⟩ false

/-- The spec enumeration `DeviceStatus`; the source carries the equivalent
`PrinterConfig.STATUS_*` identifiers (from the repository file
`printer_config.py`, which is not among the sources). -/
inductive PStatus
  | ready
  | mediaOut
  | headOpen
  | unknownError
  | commError
deriving DecidableEq

/-- The response-decoding part of `_check_printer_status`: status computed from a
received, non-empty response.  `maskMediaOut` and `maskHeadOpen` stand for
`PrinterConfig.ERROR_MASK_MEDIA_OUT` / `ERROR_MASK_HEAD_OPEN`.
Modelled from the spec: the two mask constants live in the missing
`printer_config.py`; the spec describes them only as two known bit
positions, so they are kept abstract. -/
def statusOfResponse (maskMediaOut maskHeadOpen : Nat) (lines : List (List Char)) : PStatus :=
  match parse_hqes_response lines with
  | none => PStatus.unknownError
  | some d =>
    if d.errorFlag = '0' then PStatus.ready
    else if Nat.land (hexToNat d.errorG1) maskMediaOut ≠ 0 then PStatus.mediaOut
    else if Nat.land (hexToNat d.errorG1) maskHeadOpen ≠ 0 then PStatus.headOpen
    else PStatus.unknownError

/-- Claim C4 as the spec words it: identical decoding but applied to the
first hexadecimal mask of the ERRORS line (`errorG2`, regex group 3) instead
of the second (`errorG1`, regex group 4) that the source decodes. -/
def statusOfResponseClaimFirstMask (maskMediaOut maskHeadOpen : Nat)
    (lines : List (List Char)) : PStatus :=
  match parse_hqes_response lines with
  | none => PStatus.unknownError
  | some d =>
    if d.errorFlag = '0' then PStatus.ready
    else if Nat.land (hexToNat d.errorG2) maskMediaOut ≠ 0 then PStatus.mediaOut
    else if Nat.land (hexToNat d.errorG2) maskHeadOpen ≠ 0 then PStatus.headOpen
    else PStatus.unknownError

/-- One connection attempt of `_check_printer_status`, as observed at the
socket: an exception, a timeout with nothing received, an empty response, or
a received response (possibly partial, processed all the same). -/
inductive AttemptOutcome
  | sockErr (networkUnreachable : Bool)
  | otherError
  | timeoutNoData
  | emptyResponse
  | gotResponse (lines : List (List Char))

/-- The 3-iteration attempt loop of `_check_printer_status`, started with
`attemptsLeft` iterations remaining and `i` the current attempt index.
Returns the status together with the number of connection attempts made.
Only a socket error whose text contains "Network is unreachable", on an
attempt index below 2, re-enters the loop. -/
def check_printer_status_from (maskMediaOut maskHeadOpen : Nat)
    (o : Nat → AttemptOutcome) : Nat → Nat → PStatus × Nat
  | 0, _ => (PStatus.commError, 0)
  | attemptsLeft + 1, i =>
    match o i with
    | AttemptOutcome.sockErr unreachable =>
      if unreachable && decide (i < 2) then
        let r := check_printer_status_from maskMediaOut maskHeadOpen o attemptsLeft (i + 1)
        (r.1, r.2 + 1)
      else (PStatus.commError, 1)
    | AttemptOutcome.otherError => (PStatus.unknownError, 1)
    | AttemptOutcome.timeoutNoData => (PStatus.commError, 1)
    | AttemptOutcome.emptyResponse => (PStatus.commError, 1)
    | AttemptOutcome.gotResponse lines => (statusOfResponse maskMediaOut maskHeadOpen lines, 1)

/-- `MinimalPrinter._check_printer_status`: up to 3 attempts from index 0. -/
def check_printer_status (maskMediaOut maskHeadOpen : Nat)
    (o : Nat → AttemptOutcome) : PStatus × Nat :=
  check_printer_status_from maskMediaOut maskHeadOpen o 3 0

/-! ### Print queue worker (src/printer.py)

A queue item is the tuple the handlers enqueue; transmission success for the
three labels of a job is an oracle indexed by the item.  `_process_print_item`
unpacks the tuple into exactly four names, so a tuple longer than four raises
`ValueError`, which nothing in the worker thread catches: the embedded
functions return `none` for that uncaught exception. -/

abbrev PrintItem := List String

/-- `MinimalPrinter._print_all_three_labels`: all three transmissions are
attempted, the job succeeds only if all three did. -/
def print_all_three_labels (tx : Fin 3 → Bool) : Bool :=
  tx 0 && tx 1 && tx 2

/-- `MinimalPrinter._process_print_item`.  `some b` is the returned boolean;
`none` is the uncaught `ValueError` of unpacking a tuple longer than four. -/
def process_print_item (tx : PrintItem → Fin 3 → Bool) (item : PrintItem) : Option Bool :=
  if item.length < 4 then some true
  else if item.length = 4 then
    if item.headD "" = "PRINT_ALL_THREE" then some (print_all_three_labels (tx item))
    else some true
  else none

/-- The pop step of the worker: remove the head only when it still equals the
item just processed. -/
def pop_if_head (q : List PrintItem) (item : PrintItem) : List PrintItem :=
  match q with
  | [] => q
  | x :: rest => if x = item then rest else q

/-- The queue after one worker cycle together with the jobs whose printing
was attempted during that cycle. -/
structure CycleResult where
  queue : List PrintItem
  attempted : List PrintItem
deriving DecidableEq

/-- One iteration of `_printer_worker_thread`: peek the head, probe, print,
pop on success.  `none` is the worker thread dying on an uncaught
exception. -/
def worker_cycle (tx : PrintItem → Fin 3 → Bool) (ready : Bool)
    (q : List PrintItem) : Option CycleResult :=
  match q with
  | [] => some ⟨q, []⟩
  | item :: _ =>
    if ready then
      match process_print_item tx item with
      | none => none
      | some true => some ⟨pop_if_head q item, [item]⟩
      | some false => some ⟨q, [item]⟩
    else some ⟨q, []⟩

/-- `n` worker cycles, with per-cycle transmission and readiness oracles;
returns the final queue and all jobs attempted, in order. -/
def worker_run (tx : Nat → PrintItem → Fin 3 → Bool) (ready : Nat → Bool) :
    Nat → List PrintItem → Option (List PrintItem × List PrintItem)
  | 0, q => some (q, [])
  | n + 1, q =>
    match worker_cycle (tx 0) (ready 0) q with
    | none => none
    | some res =>
      match worker_run (fun k => tx (k + 1)) (fun k => ready (k + 1)) n res.queue with
      | none => none
      | some (qf, att) => some (qf, res.attempted ++ att)

/-! ### Command router operation results (src/printer.py)

Each `_handle_*` method is embedded as the list of
`printer/operation/result` publications it performs, with its external
effects (JSON parse, CSV calls, socket sends) supplied as parameters.
`_publish_operation_result` publishes only while the MQTT client is
connected. -/

/-- An operation-result notification: operation name and success flag. -/
structure OpResult where
  operation : List Char
  success : Bool
deriving DecidableEq

/-- `MinimalPrinter._publish_operation_result`. -/
def publish_operation_result (mqttConnected : Bool) (op : List Char) (success : Bool) :
    List OpResult :=
  if mqttConnected then [⟨op, success⟩] else []

/-- `MinimalPrinter._handle_create`: `payload` is the parsed
`checker_name` field (`none` on invalid JSON), `csvOk` the outcome of
`add_serial_to_csv`. -/
def handle_create (mqttConnected : Bool) (payload : Option (List Char)) (csvOk : Bool) :
    List OpResult :=
  match payload with
  | none => publish_operation_result mqttConnected "create".toList false
  | some checker =>
    if stripL checker = [] then publish_operation_result mqttConnected "create".toList false
    else if !csvOk then publish_operation_result mqttConnected "create".toList false
    else publish_operation_result mqttConnected "create".toList true

/-- `MinimalPrinter._handle_reprint`: `lookupOk` states that the CSV lookup
returned all three of serial, QR code and creation timestamp. -/
def handle_reprint (mqttConnected : Bool) (payload : List Char) (lookupOk : Bool) :
    List OpResult :=
  if stripL payload = [] then publish_operation_result mqttConnected "reprint".toList false
  else if !lookupOk then publish_operation_result mqttConnected "reprint".toList false
  else publish_operation_result mqttConnected "reprint".toList true

/-- `MinimalPrinter._handle_expedition`: `payload` is the parsed
`(serial_number, timestamp_expedition)` pair, `updateOk` the CSV update
outcome. -/
def handle_expedition (mqttConnected : Bool) (payload : Option (List Char × List Char))
    (updateOk : Bool) : List OpResult :=
  match payload with
  | none => publish_operation_result mqttConnected "expedition".toList false
  | some (serial, ts) =>
    if stripL serial = [] ∨ stripL ts = [] then
      publish_operation_result mqttConnected "expedition".toList false
    else if updateOk then publish_operation_result mqttConnected "expedition".toList true
    else publish_operation_result mqttConnected "expedition".toList false

/-- `MinimalPrinter._handle_sav_entry`: `serialExists` is the main-CSV
lookup, `alreadyInSav` the `is_battery_in_sav` check, `addOk` the outcome of
`add_sav_entry`. -/
def handle_sav_entry (mqttConnected : Bool) (payload : Option (List Char × List Char))
    (serialExists alreadyInSav addOk : Bool) : List OpResult :=
  match payload with
  | none => publish_operation_result mqttConnected "sav_entry".toList false
  | some (serial, ts) =>
    if stripL serial = [] ∨ stripL ts = [] then
      publish_operation_result mqttConnected "sav_entry".toList false
    else if !serialExists then publish_operation_result mqttConnected "sav_entry".toList false
    else if alreadyInSav then publish_operation_result mqttConnected "sav_entry".toList false
    else if addOk then publish_operation_result mqttConnected "sav_entry".toList true
    else publish_operation_result mqttConnected "sav_entry".toList false

/-- `MinimalPrinter._handle_sav_departure`: `inSav` is the
`is_battery_in_sav` check, `updateOk` the outcome of `update_sav_departure`. -/
def handle_sav_departure (mqttConnected : Bool) (payload : Option (List Char × List Char))
    (inSav updateOk : Bool) : List OpResult :=
  match payload with
  | none => publish_operation_result mqttConnected "sav_departure".toList false
  | some (serial, ts) =>
    if stripL serial = [] ∨ stripL ts = [] then
      publish_operation_result mqttConnected "sav_departure".toList false
    else if !inSav then publish_operation_result mqttConnected "sav_departure".toList false
    else if updateOk then publish_operation_result mqttConnected "sav_departure".toList true
    else publish_operation_result mqttConnected "sav_departure".toList false

/-- `MinimalPrinter._handle_create_qr`: `payload` is the parsed `qr_text`
field (`none` on invalid JSON), `sendOk` the ZPL transmission outcome.  Every
branch only logs; none publishes an operation result. -/
def handle_create_qr (mqttConnected : Bool) (payload : Option (List Char))
    (sendOk : Bool) : List OpResult :=
  match payload with
  | none => []
  | some qrText =>
    if stripL qrText = [] then []
    else if sendOk then [] else []

/-! ### Concrete inputs used by witnesses and counterexamples -/

/-- A session sitting in `AwaitReprintSerial` with pending reprint and QR
scratch data, as the countdown fires. -/
def exSessionC8 : ScanState :=
  ⟨STATE_AWAIT_REPRINT_SERIAL, [], false, none,
   some "X".toList, some "Y".toList, none, none, some "A0032".toList, none⟩

/-- Ledger used by the claim C3 witness: one serial with an open SAV visit
and one without. -/
def rowsC3 : List LedgerRow :=
  [⟨"RW-48v2710005".toList, "True".toList⟩, ⟨"RW-48v2500001".toList, "False".toList⟩]

/-- Expedition batch used by the claim C3 witness. -/
def batchC3 : List (List Char) := ["RW-48v2710005".toList, "RW-48v2500001".toList]

/-- Rows of the claim C1 counterexample: one record matching the serial
pattern whose serial continues past the captured sequence. -/
def rowsC1 : List LedgerRow := [⟨"RW-48vXXX0032A9999".toList, "False".toList⟩]

/-- Rows of the claim C1 witness: every matching serial ends in its captured
sequence; the maximum sequence is 32. -/
def rowsC1W : List LedgerRow :=
  [⟨"RW-48vXXX0032".toList, "False".toList⟩, ⟨"RW-48v2710005".toList, "False".toList⟩]

/-! ## Theorems -/

/-! ### Claim C8 — session reset on timeout -/

/-- Claim C8, counterexample: when the countdown fires, the pending reprint
serial and the pending QR text and content are NOT cleared, contradicting the
claim that every scratch field of the session is cleared. -/
theorem claim8_counterexample :
    (timeout_expired exSessionC8).serial_to_reprint ≠ none ∧
    (timeout_expired exSessionC8).qr_text_to_print ≠ none ∧
    (timeout_expired exSessionC8).qr_content_to_encode ≠ none := by
  refine ⟨?_, ?_, ?_⟩ <;> simp [timeout_expired, reset_scan, exSessionC8]

/-- Claim C8, amended: when the armed countdown fires the session returns to
the Idle state and the pending SAV serial, the expedition batch and mode
flag, the pending model key and the pending finish serial are cleared, but
the pending reprint serial and the pending QR text and content keep their
previous values. -/
theorem claim8_timeout_reset_amended (s : ScanState) :
    (timeout_expired s).current_state = STATE_IDLE ∧
    (timeout_expired s).serials_for_expedition = [] ∧
    (timeout_expired s).expedition_mode_active = false ∧
    (timeout_expired s).serial_for_sav = none ∧
    (timeout_expired s).validated_model = none ∧
    (timeout_expired s).temp_serial_to_validate = none ∧
    (timeout_expired s).material_letter = none ∧
    (timeout_expired s).serial_to_reprint = s.serial_to_reprint ∧
    (timeout_expired s).qr_text_to_print = s.qr_text_to_print ∧
    (timeout_expired s).qr_content_to_encode = s.qr_content_to_encode :=
  ⟨rfl, rfl, rfl, rfl, rfl, rfl, rfl, rfl, rfl, rfl⟩

/-! ### Claim C9 — operation-result notifications -/

/-- Claim C9, counterexample: the custom-QR handler publishes no
operation-result notification, neither in its success branch nor in its
failure branch, contradicting the claim that every inbound command ends by
publishing one. -/
theorem claim9_counterexample :
    handle_create_qr true (some "HELLO".toList) true = [] ∧
    handle_create_qr true (some "HELLO".toList) false = [] := by
  exact ⟨rfl, rfl⟩

/-- Claim C9, amended: with the MQTT client connected, every inbound command
handler other than custom-QR publishes exactly one operation-result
notification, in its success and in all of its failure branches; the
custom-QR handler never publishes one. -/
theorem claim9_operation_result_amended :
    (∀ p c, (handle_create true p c).length = 1) ∧
    (∀ p l, (handle_reprint true p l).length = 1) ∧
    (∀ p u, (handle_expedition true p u).length = 1) ∧
    (∀ p e a k, (handle_sav_entry true p e a k).length = 1) ∧
    (∀ p i u, (handle_sav_departure true p i u).length = 1) ∧
    (∀ p s, handle_create_qr true p s = []) := by
  refine ⟨?_, ?_, ?_, ?_, ?_, ?_⟩
  · intro p c
    cases p <;> simp [handle_create, publish_operation_result] <;> split_ifs <;> rfl
  · intro p l
    simp only [handle_reprint, publish_operation_result]
    split_ifs <;> rfl
  · intro p u
    cases p with
    | none => rfl
    | some q =>
      obtain ⟨a, b⟩ := q
      simp only [handle_expedition, publish_operation_result]
      split_ifs <;> rfl
  · intro p e a k
    cases p with
    | none => rfl
    | some q =>
      obtain ⟨x, y⟩ := q
      simp only [handle_sav_entry, publish_operation_result]
      split_ifs <;> rfl
  · intro p i u
    cases p with
    | none => rfl
    | some q =>
      obtain ⟨x, y⟩ := q
      simp only [handle_sav_departure, publish_operation_result]
      split_ifs <;> rfl
  · intro p s
    cases p with
    | none => rfl
    | some q =>
      simp only [handle_create_qr]
      split_ifs <;> rfl

/-! ### Claim C10 — malformed queue items -/

/-- Claim C10, counterexample: a queued tuple of five fields whose kind is
not PRINT_ALL_THREE is not treated as successfully processed and removed;
unpacking it raises an uncaught ValueError and the worker thread dies with
the item still queued. -/
theorem claim10_counterexample :
    process_print_item (fun _ _ => true) ["FOO", "a", "b", "c", "d"] = none ∧
    worker_cycle (fun _ _ => true) true [["FOO", "a", "b", "c", "d"]] = none ∧
    worker_cycle (fun _ _ => true) true [["FOO", "a", "b", "c", "d"]] ≠
      some ⟨[], [["FOO", "a", "b", "c", "d"]]⟩ := by
  refine ⟨rfl, rfl, ?_⟩
  decide

/-- Claim C10, amended: a queued item whose tuple has fewer than four fields,
or whose tuple has exactly four fields with a job kind other than
PRINT_ALL_THREE, is treated as successfully processed — independently of the
transmission oracle, so no label transmission takes place — and the worker
cycle removes it from the head of the queue. -/
theorem claim10_malformed_item_amended (tx tx' : PrintItem → Fin 3 → Bool)
    (item : PrintItem) (rest : List PrintItem)
    (h : item.length < 4 ∨ (item.length = 4 ∧ item.headD "" ≠ "PRINT_ALL_THREE")) :
    process_print_item tx item = some true ∧
    process_print_item tx item = process_print_item tx' item ∧
    worker_cycle tx true (item :: rest) = some ⟨rest, [item]⟩ := by
  have hp : ∀ t : PrintItem → Fin 3 → Bool, process_print_item t item = some true := by
    intro t
    rcases h with hl | ⟨h4, hk⟩
    · simp [process_print_item, hl]
    · have hlt : ¬item.length < 4 := by omega
      unfold process_print_item
      rw [if_neg hlt, if_pos h4, if_neg hk]
  refine ⟨hp tx, (hp tx).trans (hp tx').symm, ?_⟩
  simp [worker_cycle, hp tx, pop_if_head]

/-- Claim C10, witness of the amended theorem at a four-field tuple with an
unknown job kind. -/
theorem claim10_witness :
    ((["UNKNOWN", "s", "r", "d"] : PrintItem).length < 4 ∨
      ((["UNKNOWN", "s", "r", "d"] : PrintItem).length = 4 ∧
        (["UNKNOWN", "s", "r", "d"] : PrintItem).headD "" ≠ "PRINT_ALL_THREE")) ∧
    (process_print_item (fun _ _ => true) ["UNKNOWN", "s", "r", "d"] = some true ∧
     process_print_item (fun _ _ => true) ["UNKNOWN", "s", "r", "d"] =
       process_print_item (fun _ _ => false) ["UNKNOWN", "s", "r", "d"] ∧
     worker_cycle (fun _ _ => true) true
       [["UNKNOWN", "s", "r", "d"], ["PRINT_ALL_THREE", "a", "b", "c"]] =
       some ⟨[["PRINT_ALL_THREE", "a", "b", "c"]], [["UNKNOWN", "s", "r", "d"]]⟩) :=
  ⟨by decide,
   claim10_malformed_item_amended (fun _ _ => true) (fun _ _ => false)
     ["UNKNOWN", "s", "r", "d"] [["PRINT_ALL_THREE", "a", "b", "c"]] (by decide)⟩

/-! ### Claim C2 — strict head-of-line blocking of the worker -/

/-- Claim C2: only the head job is attempted each cycle; with the device
always ready and a head job whose processing always fails, after N cycles
the queue is unchanged, every attempt was of the head job, and the second
job was never attempted. -/
theorem claim2_head_of_line_blocking (tx : Nat → PrintItem → Fin 3 → Bool)
    (ready : Nat → Bool) (N : Nat) (J1 J2 : PrintItem)
    (hready : ∀ n, ready n = true)
    (hfail : ∀ n, process_print_item (tx n) J1 = some false)
    (hne : J2 ≠ J1) :
    worker_run tx ready N [J1, J2] = some ([J1, J2], List.replicate N J1) ∧
      J2 ∉ List.replicate N J1 := by
  constructor
  · induction N generalizing tx ready with
    | zero => rfl
    | succ n ih =>
      have h1 : worker_cycle (tx 0) (ready 0) [J1, J2] = some ⟨[J1, J2], [J1]⟩ := by
        simp [worker_cycle, hready 0, hfail 0]
      have h2 := ih (fun k => tx (k + 1)) (fun k => ready (k + 1))
        (fun n => hready (n + 1)) (fun n => hfail (n + 1))
      simp [worker_run, h1, h2, List.replicate_succ]
  · simp only [List.mem_replicate, not_and]
    intro _
    exact hne

/-- Claim C2, witness: two PRINT_ALL_THREE jobs, transmissions always
failing, probed over four cycles. -/
theorem claim2_witness :
    (∀ n : Nat, (fun _ : Nat => true) n = true) ∧
    (∀ n : Nat, process_print_item ((fun _ _ _ => false) n)
      ["PRINT_ALL_THREE", "s", "r", "d"] = some false) ∧
    (["PRINT_ALL_THREE", "t", "q", "e"] : PrintItem) ≠ ["PRINT_ALL_THREE", "s", "r", "d"] ∧
    (worker_run (fun _ _ _ => false) (fun _ => true) 4
        [["PRINT_ALL_THREE", "s", "r", "d"], ["PRINT_ALL_THREE", "t", "q", "e"]] =
        some ([["PRINT_ALL_THREE", "s", "r", "d"], ["PRINT_ALL_THREE", "t", "q", "e"]],
          List.replicate 4 ["PRINT_ALL_THREE", "s", "r", "d"]) ∧
      ["PRINT_ALL_THREE", "t", "q", "e"] ∉
        List.replicate 4 (["PRINT_ALL_THREE", "s", "r", "d"] : PrintItem)) :=
  ⟨fun _ => rfl, fun _ => rfl, by decide,
   claim2_head_of_line_blocking (fun _ _ _ => false) (fun _ => true) 4
     ["PRINT_ALL_THREE", "s", "r", "d"] ["PRINT_ALL_THREE", "t", "q", "e"]
     (fun _ => rfl) (fun _ => rfl) (by decide)⟩

/-! ### Claim C6 — three attempts on network unreachable -/

/-- Claim C6: when every connection attempt raises the network-unreachable
condition, the probe makes exactly 3 connection attempts, returns CommError,
and never returns Ready. -/
theorem claim6_unreachable_three_attempts (maskMediaOut maskHeadOpen : Nat)
    (o : Nat → AttemptOutcome)
    (h : ∀ i, o i = AttemptOutcome.sockErr true) :
    check_printer_status maskMediaOut maskHeadOpen o = (PStatus.commError, 3) ∧
      (check_printer_status maskMediaOut maskHeadOpen o).1 ≠ PStatus.ready := by
  have e : check_printer_status maskMediaOut maskHeadOpen o = (PStatus.commError, 3) := by
    simp [check_printer_status, check_printer_status_from, h 0, h 1, h 2]
  refine ⟨e, ?_⟩
  rw [e]
  simp

/-- Claim C6, witness: the always-unreachable outcome oracle. -/
theorem claim6_witness :
    (∀ i : Nat, (fun _ : Nat => AttemptOutcome.sockErr true) i = AttemptOutcome.sockErr true) ∧
    (check_printer_status 1 4 (fun _ => AttemptOutcome.sockErr true) = (PStatus.commError, 3) ∧
      (check_printer_status 1 4 (fun _ => AttemptOutcome.sockErr true)).1 ≠ PStatus.ready) :=
  ⟨fun _ => rfl, claim6_unreachable_three_attempts 1 4 _ (fun _ => rfl)⟩

/-! ### Claim C4 — decoding of the ERRORS line -/

/-- Zero-filling does not change the numeric value of a hexadecimal string. -/
lemma foldl_hex_replicate_zero (k : Nat) :
    (List.replicate k '0').foldl (fun a c => a * 16 + hexVal c) 0 = 0 := by
  induction k with
  | zero => rfl
  | succ n ih =>
    rw [List.replicate_succ, List.foldl_cons]
    have h0 : (0 * 16 + hexVal '0') = 0 := rfl
    rw [h0]
    exact ih

lemma hexToNat_zfill8 (s : List Char) : hexToNat (zfill8 s) = hexToNat s := by
  unfold hexToNat zfill8
  rw [List.foldl_append, foldl_hex_replicate_zero]

/-- Claim C4, counterexample: on a response whose ERRORS line carries the
media-out bit in its first hexadecimal mask and zero in its second, the
claimed decoding (first mask) yields MediaOut while the source decodes the
second mask and yields UnknownError. -/
theorem claim4_counterexample :
    statusOfResponseClaimFirstMask 1 4 ["ERRORS: 1 00000001 00000000".toList] =
      PStatus.mediaOut ∧
    statusOfResponse 1 4 ["ERRORS: 1 00000001 00000000".toList] =
      PStatus.unknownError ∧
    statusOfResponse 1 4 ["ERRORS: 1 00000001 00000000".toList] ≠
      statusOfResponseClaimFirstMask 1 4 ["ERRORS: 1 00000001 00000000".toList] := by
  refine ⟨by decide, by decide, by decide⟩

/-- Claim C4, amended: for a response with a parsed ERRORS section, the probe
is Ready iff the error flag digit is '0'; otherwise it decodes the SECOND
hexadecimal mask of the ERRORS line (regex group 4) against the media-out
and head-open bits, media-out first, falling back to UnknownError. -/
theorem claim4_error_decode_amended (maskMediaOut maskHeadOpen : Nat) (l : List Char)
    (flag : Char) (h1 h2 : List Char)
    (hm : matchHqesLine l = some ("ERRORS".toList, flag, h1, h2)) :
    (statusOfResponse maskMediaOut maskHeadOpen [l] = PStatus.ready ↔ flag = '0') ∧
    (flag ≠ '0' →
      statusOfResponse maskMediaOut maskHeadOpen [l] =
        (if Nat.land (hexToNat h2) maskMediaOut ≠ 0 then PStatus.mediaOut
         else if Nat.land (hexToNat h2) maskHeadOpen ≠ 0 then PStatus.headOpen
         else PStatus.unknownError)) := by
  have hp : parse_hqes_response [l] =
      some ⟨flag, zfill8 h1, zfill8 h2, '0',
        zfill8 "00000000".toList, zfill8 "00000000".toList⟩ := by
    simp [parse_hqes_response, parseHqesAux, hm]
  have hs : statusOfResponse maskMediaOut maskHeadOpen [l] =
      (if flag = '0' then PStatus.ready
       else if Nat.land (hexToNat h2) maskMediaOut ≠ 0 then PStatus.mediaOut
       else if Nat.land (hexToNat h2) maskHeadOpen ≠ 0 then PStatus.headOpen
       else PStatus.unknownError) := by
    simp [statusOfResponse, hp, hexToNat_zfill8]
  constructor
  · rw [hs]
    by_cases hf : flag = '0'
    · simp [hf]
    · rw [if_neg hf]
      simp only [hf, iff_false]
      split_ifs <;> simp
  · intro hf
    rw [hs, if_neg hf]

/-- Claim C4, witness of the amended theorem on a concrete ERRORS line with
the media-out bit (mask bit 1) set in the second mask. -/
theorem claim4_witness :
    matchHqesLine "ERRORS: 1 00000000 00000005".toList =
      some ("ERRORS".toList, '1', "00000000".toList, "00000005".toList) ∧
    ((statusOfResponse 1 4 ["ERRORS: 1 00000000 00000005".toList] = PStatus.ready ↔
        ('1' : Char) = '0') ∧
     (('1' : Char) ≠ '0' →
        statusOfResponse 1 4 ["ERRORS: 1 00000000 00000005".toList] =
          (if Nat.land (hexToNat "00000005".toList) 1 ≠ 0 then PStatus.mediaOut
           else if Nat.land (hexToNat "00000005".toList) 4 ≠ 0 then PStatus.headOpen
           else PStatus.unknownError))) :=
  ⟨by decide, claim4_error_decode_amended 1 4 "ERRORS: 1 00000000 00000005".toList '1'
    "00000000".toList "00000005".toList (by decide)⟩

/-! ### Claim C5 — degraded responses -/

/-- Claim C5, counterexample: a response with no matching ERRORS line yields
UnknownError (not CommError as claimed), and no response at all yields
CommError (not UnknownError as claimed). -/
theorem claim5_counterexample :
    (check_printer_status 1 4 (fun _ => AttemptOutcome.gotResponse [['H', 'I']])).1 ≠
      PStatus.commError ∧
    (check_printer_status 1 4 (fun _ => AttemptOutcome.emptyResponse)).1 ≠
      PStatus.unknownError := by
  refine ⟨by decide, by decide⟩

/-- Claim C5, amended: a device response containing no line matching the
ERRORS section yields UnknownError, and receiving no response at all yields
CommError; neither case yields Ready. -/
theorem claim5_degraded_status_amended (maskMediaOut maskHeadOpen : Nat)
    (o1 o2 : Nat → AttemptOutcome) (lines : List (List Char))
    (hnoerr : parse_hqes_response lines = none)
    (ho1 : o1 0 = AttemptOutcome.gotResponse lines)
    (ho2 : o2 0 = AttemptOutcome.emptyResponse) :
    statusOfResponse maskMediaOut maskHeadOpen lines = PStatus.unknownError ∧
    check_printer_status maskMediaOut maskHeadOpen o1 = (PStatus.unknownError, 1) ∧
    check_printer_status maskMediaOut maskHeadOpen o2 = (PStatus.commError, 1) ∧
    statusOfResponse maskMediaOut maskHeadOpen lines ≠ PStatus.ready := by
  have h1 : statusOfResponse maskMediaOut maskHeadOpen lines = PStatus.unknownError := by
    simp [statusOfResponse, hnoerr]
  refine ⟨h1, ?_, ?_, by rw [h1]; simp⟩
  · simp [check_printer_status, check_printer_status_from, ho1, h1]
  · simp [check_printer_status, check_printer_status_from, ho2]

/-- Claim C5, witness of the amended theorem: a response that is a single
unparseable line, and a probe that receives nothing. -/
theorem claim5_witness :
    parse_hqes_response [['H', 'I']] = none ∧
    (fun _ : Nat => AttemptOutcome.gotResponse [['H', 'I']]) 0 =
      AttemptOutcome.gotResponse [['H', 'I']] ∧
    (fun _ : Nat => AttemptOutcome.emptyResponse) 0 = AttemptOutcome.emptyResponse ∧
    (statusOfResponse 1 4 [['H', 'I']] = PStatus.unknownError ∧
     check_printer_status 1 4 (fun _ => AttemptOutcome.gotResponse [['H', 'I']]) =
       (PStatus.unknownError, 1) ∧
     check_printer_status 1 4 (fun _ => AttemptOutcome.emptyResponse) =
       (PStatus.commError, 1) ∧
     statusOfResponse 1 4 [['H', 'I']] ≠ PStatus.ready) :=
  ⟨rfl, rfl, rfl, claim5_degraded_status_amended 1 4 _ _ [['H', 'I']] rfl rfl rfl⟩

/-! ### Claim C7 — finish/validate compatibility rule -/

/-- Claim C7: at the finish confirmation step (matching confirmation token,
pending serial present, MQTT connected), the validate message is published
iff the combination is valid, and the combination is valid iff the claimed
letter/model rule holds. -/
theorem claim7_finish_compatibility (letter : Char) (rest model text : List Char)
    (htext : stripL (toLowerL text) = "finish ".toList ++ model) :
    (handle_await_finish_confirm true ⟨some model, some (letter :: rest)⟩ text =
        some (letter :: rest, model) ↔
      is_finish_combination_valid letter model = true) ∧
    (is_finish_combination_valid letter model = true ↔
      (((letter = 'A' ∨ letter = 'B' ∨ letter = 'C') ∧
          (model = "13".toList ∨ model = "12".toList)) ∨
        ((letter = 'D' ∨ letter = 'E') ∧ model = "8.6".toList))) := by
  constructor
  · have hstep : handle_await_finish_confirm true ⟨some model, some (letter :: rest)⟩ text =
        (if is_finish_combination_valid letter model then
          some (letter :: rest, model) else none) := by
      unfold handle_await_finish_confirm
      simp [pyStr, headChar, htext]
    rw [hstep]
    by_cases hv : is_finish_combination_valid letter model = true
    · simp [hv]
    · simp [hv]
  · unfold is_finish_combination_valid valid_combinations
    by_cases hA : letter = 'A'
    · subst hA; simp [List.mem_cons]
    · by_cases hB : letter = 'B'
      · subst hB; simp [hA, List.mem_cons]
      · by_cases hC : letter = 'C'
        · subst hC; simp [hA, hB, List.mem_cons]
        · by_cases hD : letter = 'D'
          · subst hD; simp [hA, hB, hC, List.mem_cons]
          · by_cases hE : letter = 'E'
            · subst hE; simp [hA, hB, hC, hD, List.mem_cons]
            · simp [hA, hB, hC, hD, hE]

/-- Claim C7, witness: letter B with model key 13 and a confirmation token
needing both lowercasing and stripping. -/
theorem claim7_witness :
    stripL (toLowerL "  Finish 13 ".toList) = "finish ".toList ++ "13".toList ∧
    ((handle_await_finish_confirm true ⟨some "13".toList, some ('B' :: "0210".toList)⟩
          "  Finish 13 ".toList = some ('B' :: "0210".toList, "13".toList) ↔
        is_finish_combination_valid 'B' "13".toList = true) ∧
     (is_finish_combination_valid 'B' "13".toList = true ↔
       ((('B' = 'A' ∨ 'B' = 'B' ∨ 'B' = 'C') ∧
           ("13".toList = "13".toList ∨ "13".toList = "12".toList)) ∨
         (('B' = 'D' ∨ 'B' = 'E') ∧ "13".toList = "8.6".toList)))) :=
  ⟨by decide, claim7_finish_compatibility 'B' "0210".toList "13".toList
    "  Finish 13 ".toList (by decide)⟩

/-! ### Claim C3 — exclusive routing at expedition finalize -/

/-- In the finalize message list, a serial contributes one SAV-Departure
exactly when it is flagged in SAV, and no other batch entry contributes one
for it. -/
lemma countP_finalize_sav (rows : List LedgerRow) (ts s : List Char) :
    ∀ batch : List (List Char), batch.Nodup → s ∈ batch →
      ((batch.map fun x =>
          if is_battery_in_sav rows x then BusMsg.savDeparture x ts
          else BusMsg.shippingUpdate x ts).countP (BusMsg.isSavDepartureFor s) =
        if is_battery_in_sav rows s then 1 else 0) := by
  intro batch
  induction batch with
  | nil => intro _ h; exact absurd h (List.not_mem_nil s)
  | cons a t ih =>
    intro hnd hmem
    obtain ⟨hnotmem, hndt⟩ := List.nodup_cons.mp hnd
    rw [List.map_cons, List.countP_cons]
    rcases List.mem_cons.mp hmem with rfl | hmem'
    · have hzero : (t.map fun x =>
          if is_battery_in_sav rows x then BusMsg.savDeparture x ts
          else BusMsg.shippingUpdate x ts).countP (BusMsg.isSavDepartureFor s) = 0 := by
        rw [List.countP_eq_zero]
        intro b hb
        obtain ⟨x, hx, rfl⟩ := List.mem_map.mp hb
        have hxs : x ≠ s := fun h => hnotmem (h ▸ hx)
        by_cases hsav : is_battery_in_sav rows x <;>
          simp [hsav, BusMsg.isSavDepartureFor, hxs]
      rw [hzero]
      by_cases hsav : is_battery_in_sav rows s <;>
        simp [hsav, BusMsg.isSavDepartureFor]
    · have hne : a ≠ s := fun h => hnotmem (h ▸ hmem')
      have hhead : BusMsg.isSavDepartureFor s
          (if is_battery_in_sav rows a then BusMsg.savDeparture a ts
           else BusMsg.shippingUpdate a ts) = false := by
        by_cases hsav : is_battery_in_sav rows a <;>
          simp [hsav, BusMsg.isSavDepartureFor, hne]
      rw [hhead]
      simpa using ih hndt hmem'

/-- Mirror of `countP_finalize_sav` for Shipping-Update messages. -/
lemma countP_finalize_ship (rows : List LedgerRow) (ts s : List Char) :
    ∀ batch : List (List Char), batch.Nodup → s ∈ batch →
      ((batch.map fun x =>
          if is_battery_in_sav rows x then BusMsg.savDeparture x ts
          else BusMsg.shippingUpdate x ts).countP (BusMsg.isShippingUpdateFor s) =
        if is_battery_in_sav rows s then 0 else 1) := by
  intro batch
  induction batch with
  | nil => intro _ h; exact absurd h (List.not_mem_nil s)
  | cons a t ih =>
    intro hnd hmem
    obtain ⟨hnotmem, hndt⟩ := List.nodup_cons.mp hnd
    rw [List.map_cons, List.countP_cons]
    rcases List.mem_cons.mp hmem with rfl | hmem'
    · have hzero : (t.map fun x =>
          if is_battery_in_sav rows x then BusMsg.savDeparture x ts
          else BusMsg.shippingUpdate x ts).countP (BusMsg.isShippingUpdateFor s) = 0 := by
        rw [List.countP_eq_zero]
        intro b hb
        obtain ⟨x, hx, rfl⟩ := List.mem_map.mp hb
        have hxs : x ≠ s := fun h => hnotmem (h ▸ hx)
        by_cases hsav : is_battery_in_sav rows x <;>
          simp [hsav, BusMsg.isShippingUpdateFor, hxs]
      rw [hzero]
      by_cases hsav : is_battery_in_sav rows s <;>
        simp [hsav, BusMsg.isShippingUpdateFor]
    · have hne : a ≠ s := fun h => hnotmem (h ▸ hmem')
      have hhead : BusMsg.isShippingUpdateFor s
          (if is_battery_in_sav rows a then BusMsg.savDeparture a ts
           else BusMsg.shippingUpdate a ts) = false := by
        by_cases hsav : is_battery_in_sav rows a <;>
          simp [hsav, BusMsg.isShippingUpdateFor, hne]
      rw [hhead]
      simpa using ih hndt hmem'

/-- Claim C3: at finalize (non-empty batch, connected MQTT client), every
accumulated serial receives exactly one SAV-Departure message and no
Shipping-Update message when its ledger SAV flag is open, and exactly one
Shipping-Update message and no SAV-Departure message otherwise. -/
theorem claim3_finalize_routes_exclusively (rows : List LedgerRow)
    (batch : List (List Char)) (ts s : List Char)
    (hne : batch ≠ []) (hnd : batch.Nodup) (hs : s ∈ batch) :
    ((handle_expedition_finalize true rows batch ts).countP
        (BusMsg.isSavDepartureFor s) =
      if is_battery_in_sav rows s then 1 else 0) ∧
    ((handle_expedition_finalize true rows batch ts).countP
        (BusMsg.isShippingUpdateFor s) =
      if is_battery_in_sav rows s then 0 else 1) := by
  have hunf : handle_expedition_finalize true rows batch ts =
      batch.map fun serial =>
        if is_battery_in_sav rows serial then BusMsg.savDeparture serial ts
        else BusMsg.shippingUpdate serial ts := by
    simp [handle_expedition_finalize, hne]
  rw [hunf]
  exact ⟨countP_finalize_sav rows ts s batch hnd hs,
         countP_finalize_ship rows ts s batch hnd hs⟩

/-! ### Claim C1 — next serial sequence number -/

/-- The captured group of the serial pattern always has exactly four digit
characters. -/
lemma group2At_shape (s g : List Char) (h : group2At s = some g) :
    g.length = 4 ∧ g.all Char.isDigit = true := by
  simp only [group2At] at h
  split_ifs at h with hpre hxxx hrun
  · simp only [Bool.and_eq_true, decide_eq_true_eq] at hxxx
    obtain ⟨⟨-, hle⟩, hdig⟩ := hxxx
    cases h
    refine ⟨?_, hdig⟩
    rw [List.length_take]
    omega
  · cases h
    constructor
    · rw [List.length_drop]
      omega
    · rw [List.all_eq_true]
      intro x hx
      exact List.mem_takeWhile_imp (List.mem_of_mem_drop hx)

/-- `searchGroup2` of the empty string. -/
lemma searchGroup2_nil : searchGroup2 [] = none := rfl

/-- Shape of the group captured by `searchGroup2`. -/
lemma searchGroup2_shape : ∀ s g : List Char, searchGroup2 s = some g →
    g.length = 4 ∧ g.all Char.isDigit = true := by
  intro s
  induction s with
  | nil => intro g h; cases h
  | cons c rest ih =>
    intro g h
    unfold searchGroup2 at h
    cases hg : group2At (c :: rest) with
    | some g2 =>
      rw [hg] at h
      cases h
      exact group2At_shape _ _ hg
    | none =>
      rw [hg] at h
      exact ih g h

/-- `matchedSeqs` ignores a row whose serial does not match. -/
lemma matchedSeqs_cons_none (r : LedgerRow) (rest : List LedgerRow)
    (h : searchGroup2 r.serial = none) :
    matchedSeqs (r :: rest) = matchedSeqs rest := by
  simp [matchedSeqs, List.filterMap_cons, h]

/-- `matchedSeqs` records the captured sequence of a matching row. -/
lemma matchedSeqs_cons_some (r : LedgerRow) (rest : List LedgerRow) (g : List Char)
    (h : searchGroup2 r.serial = some g) :
    matchedSeqs (r :: rest) = digitsToNat g :: matchedSeqs rest := by
  simp [matchedSeqs, List.filterMap_cons, h]

/-- Invariant of the `get_last_serial_from_csv` loop once a best row is
held: the loop returns a serial drawn from the candidate or the remaining
rows, matching the pattern, whose captured sequence is the maximum of the
candidate sequence and all remaining captured sequences. -/
lemma lastSerialAux_some (rows : List LedgerRow) :
    ∀ s0 g0 : List Char, searchGroup2 s0 = some g0 →
    ∃ s g, lastSerialAux rows (digitsToNat g0) (some s0) = some s ∧
      (s = s0 ∨ ∃ r ∈ rows, r.serial = s) ∧
      searchGroup2 s = some g ∧
      digitsToNat g = max (digitsToNat g0) ((matchedSeqs rows).foldr max 0) := by
  induction rows with
  | nil =>
    intro s0 g0 h0
    refine ⟨s0, g0, rfl, Or.inl rfl, h0, ?_⟩
    simp [matchedSeqs]
  | cons r rest ih =>
    intro s0 g0 h0
    by_cases hser : r.serial = []
    · have hs2 : searchGroup2 r.serial = none := by rw [hser]; rfl
      obtain ⟨s, g, h1, h2, h3, h4⟩ := ih s0 g0 h0
      refine ⟨s, g, ?_, ?_, h3, ?_⟩
      · simp only [lastSerialAux, if_pos hser]
        exact h1
      · rcases h2 with h2 | ⟨rr, hrr, hrs⟩
        · exact Or.inl h2
        · exact Or.inr ⟨rr, List.mem_cons_of_mem _ hrr, hrs⟩
      · rw [matchedSeqs_cons_none r rest hs2]
        exact h4
    · cases hsg : searchGroup2 r.serial with
      | none =>
        obtain ⟨s, g, h1, h2, h3, h4⟩ := ih s0 g0 h0
        refine ⟨s, g, ?_, ?_, h3, ?_⟩
        · simp only [lastSerialAux, if_neg hser, hsg]
          exact h1
        · rcases h2 with h2 | ⟨rr, hrr, hrs⟩
          · exact Or.inl h2
          · exact Or.inr ⟨rr, List.mem_cons_of_mem _ hrr, hrs⟩
        · rw [matchedSeqs_cons_none r rest hsg]
          exact h4
      | some g1 =>
        rw [matchedSeqs_cons_some r rest g1 hsg, List.foldr_cons]
        by_cases hlt : (digitsToNat g0 : Int) < (digitsToNat g1 : Int)
        · obtain ⟨s, g, h1, h2, h3, h4⟩ := ih r.serial g1 hsg
          refine ⟨s, g, ?_, ?_, h3, ?_⟩
          · simp only [lastSerialAux, if_neg hser, hsg, if_pos hlt]
            exact h1
          · rcases h2 with h2 | ⟨rr, hrr, hrs⟩
            · exact Or.inr ⟨r, List.mem_cons_self r rest, h2.symm⟩
            · exact Or.inr ⟨rr, List.mem_cons_of_mem _ hrr, hrs⟩
          · have hlt' : digitsToNat g0 < digitsToNat g1 := by exact_mod_cast hlt
            omega
        · obtain ⟨s, g, h1, h2, h3, h4⟩ := ih s0 g0 h0
          refine ⟨s, g, ?_, ?_, h3, ?_⟩
          · simp only [lastSerialAux, if_neg hser, hsg, if_neg hlt]
            exact h1
          · rcases h2 with h2 | ⟨rr, hrr, hrs⟩
            · exact Or.inl h2
            · exact Or.inr ⟨rr, List.mem_cons_of_mem _ hrr, hrs⟩
          · have hle : digitsToNat g1 ≤ digitsToNat g0 := by
              have := not_lt.mp hlt
              exact_mod_cast this
            omega

/-- `get_last_serial_from_csv` returns nothing iff no row matches the serial
pattern, and otherwise returns a matching row whose captured sequence is the
maximum captured sequence. -/
lemma get_last_serial_spec (rows : List LedgerRow) :
    (matchedSeqs rows = [] → get_last_serial_from_csv rows = none) ∧
    (matchedSeqs rows ≠ [] →
      ∃ s g, get_last_serial_from_csv rows = some s ∧
        (∃ r ∈ rows, r.serial = s) ∧
        searchGroup2 s = some g ∧
        digitsToNat g = (matchedSeqs rows).foldr max 0) := by
  induction rows with
  | nil =>
    refine ⟨fun _ => rfl, fun h => absurd rfl h⟩
  | cons r rest ih =>
    by_cases hser : r.serial = []
    · have hs2 : searchGroup2 r.serial = none := by rw [hser]; rfl
      have hstep : get_last_serial_from_csv (r :: rest) = get_last_serial_from_csv rest := by
        simp only [get_last_serial_from_csv, lastSerialAux, if_pos hser]
      rw [matchedSeqs_cons_none r rest hs2, hstep]
      refine ⟨ih.1, fun h => ?_⟩
      obtain ⟨s, g, h1, ⟨rr, hrr, hrs⟩, h3, h4⟩ := ih.2 h
      exact ⟨s, g, h1, ⟨rr, List.mem_cons_of_mem _ hrr, hrs⟩, h3, h4⟩
    · cases hsg : searchGroup2 r.serial with
      | none =>
        have hstep : get_last_serial_from_csv (r :: rest) = get_last_serial_from_csv rest := by
          simp only [get_last_serial_from_csv, lastSerialAux, if_neg hser, hsg]
        rw [matchedSeqs_cons_none r rest hsg, hstep]
        refine ⟨ih.1, fun h => ?_⟩
        obtain ⟨s, g, h1, ⟨rr, hrr, hrs⟩, h3, h4⟩ := ih.2 h
        exact ⟨s, g, h1, ⟨rr, List.mem_cons_of_mem _ hrr, hrs⟩, h3, h4⟩
      | some g1 =>
        rw [matchedSeqs_cons_some r rest g1 hsg]
        have hlt : (-1 : Int) < (digitsToNat g1 : Int) := by omega
        have hstep : get_last_serial_from_csv (r :: rest) =
            lastSerialAux rest (digitsToNat g1) (some r.serial) := by
          simp only [get_last_serial_from_csv, lastSerialAux, if_neg hser, hsg, if_pos hlt]
        refine ⟨fun h => absurd h (List.cons_ne_nil _ _), fun _ => ?_⟩
        obtain ⟨s, g, h1, h2, h3, h4⟩ := lastSerialAux_some rest r.serial g1 hsg
        refine ⟨s, g, hstep.trans h1, ?_, h3, ?_⟩
        · rcases h2 with h2 | ⟨rr, hrr, hrs⟩
          · exact ⟨r, List.mem_cons_self r rest, h2.symm⟩
          · exact ⟨rr, List.mem_cons_of_mem _ hrr, hrs⟩
        · rw [List.foldr_cons]
          exact h4

/-- Claim C1, counterexample: the only record matches the RW-48v prefix
format with captured sequence 0032, so the claim demands a generated numeric
part of 33, but the source anchors its final extraction at the end of the
string and generates 10000. -/
theorem claim1_counterexample :
    claimNextNumericPart rowsC1 = 33 ∧
    generate_next_numeric_part rowsC1 = 10000 ∧
    generate_next_numeric_part rowsC1 ≠ claimNextNumericPart rowsC1 := by
  refine ⟨by decide, by decide, by decide⟩

/-- Claim C1, amended: provided every record matching the RW-48v prefix
format has its captured 4-digit sequence as the final four characters of its
serial, the generated numeric part equals one plus the maximum captured
sequence among matching records, and 0 when no record matches. -/
theorem claim1_next_sequence_amended (rows : List LedgerRow)
    (hsuf : rows.all (fun r => matchIsSuffix r.serial) = true) :
    generate_next_numeric_part rows = claimNextNumericPart rows := by
  by_cases hm : matchedSeqs rows = []
  · have h1 := (get_last_serial_spec rows).1 hm
    simp [generate_next_numeric_part, h1, claimNextNumericPart, hm]
  · obtain ⟨s, g, h1, ⟨r, hr, hrs⟩, h3, h4⟩ := (get_last_serial_spec rows).2 hm
    have hsfx : matchIsSuffix s = true := by
      have hall := List.all_eq_true.mp hsuf r hr
      rw [hrs] at hall
      exact hall
    have hdrop : s.drop (s.length - 4) = g := by
      unfold matchIsSuffix at hsfx
      rw [h3] at hsfx
      exact of_decide_eq_true hsfx
    have hshape := searchGroup2_shape s g h3
    have hlen4 : 4 ≤ s.length := by
      have hl := congrArg List.length hdrop
      rw [List.length_drop, hshape.1] at hl
      omega
    have ht4 : tail4 s = some g := by
      unfold tail4
      rw [if_pos hlen4, hdrop, if_pos hshape.2]
    have hgen : generate_next_numeric_part rows = digitsToNat g + 1 := by
      simp only [generate_next_numeric_part, h1, ht4]
    rw [hgen, claimNextNumericPart, if_neg hm, h4]

/-- Claim C1, witness of the amended theorem. -/
theorem claim1_witness :
    rowsC1W.all (fun r => matchIsSuffix r.serial) = true ∧
    generate_next_numeric_part rowsC1W = claimNextNumericPart rowsC1W :=
  ⟨by decide, claim1_next_sequence_amended rowsC1W (by decide)⟩

/-- Claim C3, witness at the serial with the open SAV visit. -/
theorem claim3_witness :
    (batchC3 ≠ [] ∧ batchC3.Nodup ∧ "RW-48v2710005".toList ∈ batchC3) ∧
    (((handle_expedition_finalize true rowsC3 batchC3 "ts".toList).countP
        (BusMsg.isSavDepartureFor "RW-48v2710005".toList) =
      if is_battery_in_sav rowsC3 "RW-48v2710005".toList then 1 else 0) ∧
     ((handle_expedition_finalize true rowsC3 batchC3 "ts".toList).countP
        (BusMsg.isShippingUpdateFor "RW-48v2710005".toList) =
      if is_battery_in_sav rowsC3 "RW-48v2710005".toList then 0 else 1)) :=
  ⟨⟨by decide, by decide, by decide⟩,
   claim3_finalize_routes_exclusively rowsC3 batchC3 "ts".toList
     "RW-48v2710005".toList (by decide) (by decide) (by decide)⟩

end LightUi
